import Mathlib

/-! Verification of the PDF question-answering core: the content-addressed
text cache, the streaming answer pipeline and the interaction logger, as
implemented in `src/main.py`, `recruit_assist/main.py` and
`workshop-1/main.py`. -/

/-! ### SHA-256 (`hashlib.sha256`), byte level, over `Nat` -/

def rotr32 (x k : Nat) : Nat :=
  ((x >>> k) ||| (x <<< (32 - k))) &&& 4294967295

def ch32 (x y z : Nat) : Nat := (x &&& y) ^^^ ((x ^^^ 4294967295) &&& z)

def maj32 (x y z : Nat) : Nat := (x &&& y) ^^^ (x &&& z) ^^^ (y &&& z)

def sumA32 (x : Nat) : Nat := rotr32 x 2 ^^^ rotr32 x 13 ^^^ rotr32 x 22

def sumE32 (x : Nat) : Nat := rotr32 x 6 ^^^ rotr32 x 11 ^^^ rotr32 x 25

def sigLo32 (x : Nat) : Nat := rotr32 x 7 ^^^ rotr32 x 18 ^^^ (x >>> 3)

def sigHi32 (x : Nat) : Nat := rotr32 x 17 ^^^ rotr32 x 19 ^^^ (x >>> 10)

/-- The 64 SHA-256 round constants, in decimal. -/
def sha256K : List Nat :=
  [1116352408, 1899447441, 3049323471, 3921009573, 961987163,
   1508970993, 2453635748, 2870763221, 3624381080, 310598401,
   607225278, 1426881987, 1925078388, 2162078206, 2614888103,
   3248222580, 3835390401, 4022224774, 264347078, 604807628,
   770255983, 1249150122, 1555081692, 1996064986, 2554220882,
   2821834349, 2952996808, 3210313671, 3336571891, 3584528711,
   113926993, 338241895, 666307205, 773529912, 1294757372,
   1396182291, 1695183700, 1986661051, 2177026350, 2456956037,
   2730485921, 2820302411, 3259730800, 3345764771, 3516065817,
   3600352804, 4094571909, 275423344, 430227734, 506948616,
   659060556, 883997877, 958139571, 1322822218, 1537002063,
   1747873779, 1955562222, 2024104815, 2227730452, 2361852424,
   2428436474, 2756734187, 3204031479, 3329325298]

/-- The eight SHA-256 initial hash values, in decimal. -/
def sha256H0 : List Nat :=
  [1779033703, 3144134277, 1013904242, 2773480762, 1359893119,
   2600822924, 528734635, 1541459225]

structure Sha256Regs where
  a : Nat
  b : Nat
  c : Nat
  d : Nat
  e : Nat
  f : Nat
  g : Nat
  h : Nat

def sha256Round (k w : Nat) (r : Sha256Regs) : Sha256Regs :=
  let t1 := (r.h + sumE32 r.e + ch32 r.e r.f r.g + k + w) % 4294967296
  let t2 := (sumA32 r.a + maj32 r.a r.b r.c) % 4294967296
  ⟨(t1 + t2) % 4294967296, r.a, r.b, r.c, (r.d + t1) % 4294967296, r.e, r.f, r.g⟩

def bytesToWords32 : List Nat → List Nat
  | b0 :: b1 :: b2 :: b3 :: rest =>
      (((b0 * 256 + b1) * 256 + b2) * 256 + b3) :: bytesToWords32 rest
  | _ => []

def sha256Schedule (block : List Nat) : List Nat :=
  (List.range 48).foldl
    (fun w _ =>
      let n := w.length
      w ++ [(sigHi32 (w.getD (n - 2) 0) + w.getD (n - 7) 0
             + sigLo32 (w.getD (n - 15) 0) + w.getD (n - 16) 0) % 4294967296])
    (bytesToWords32 block)

def sha256Compress (hs : List Nat) (block : List Nat) : List Nat :=
  let w := sha256Schedule block
  let r0 : Sha256Regs :=
    ⟨hs.getD 0 0, hs.getD 1 0, hs.getD 2 0, hs.getD 3 0,
     hs.getD 4 0, hs.getD 5 0, hs.getD 6 0, hs.getD 7 0⟩
  let r := (sha256K.zip w).foldl (fun acc kw => sha256Round kw.1 kw.2 acc) r0
  [(hs.getD 0 0 + r.a) % 4294967296, (hs.getD 1 0 + r.b) % 4294967296,
   (hs.getD 2 0 + r.c) % 4294967296, (hs.getD 3 0 + r.d) % 4294967296,
   (hs.getD 4 0 + r.e) % 4294967296, (hs.getD 5 0 + r.f) % 4294967296,
   (hs.getD 6 0 + r.g) % 4294967296, (hs.getD 7 0 + r.h) % 4294967296]

def sha256LenBytes (bitLen : Nat) : List Nat :=
  [(bitLen >>> 56) &&& 255, (bitLen >>> 48) &&& 255, (bitLen >>> 40) &&& 255,
   (bitLen >>> 32) &&& 255, (bitLen >>> 24) &&& 255, (bitLen >>> 16) &&& 255,
   (bitLen >>> 8) &&& 255, bitLen &&& 255]

def sha256Pad (msg : List Nat) : List Nat :=
  msg ++ [128] ++ List.replicate ((119 - msg.length % 64) % 64) 0
      ++ sha256LenBytes (msg.length * 8)

def listChunks64 : Nat → List Nat → List (List Nat)
  | 0, _ => []
  | _, [] => []
  | fuel + 1, l => l.take 64 :: listChunks64 fuel (l.drop 64)

def word32Bytes (w : Nat) : List Nat :=
  [(w >>> 24) &&& 255, (w >>> 16) &&& 255, (w >>> 8) &&& 255, w &&& 255]

/-- SHA-256 digest of a byte sequence, as a list of 32 bytes. -/
def sha256 (msg : List Nat) : List Nat :=
  let padded := sha256Pad msg
  (((listChunks64 padded.length padded).foldl sha256Compress sha256H0).map word32Bytes).flatten

/-! ### `str(uuid.UUID(bytes=...))` formatting and the document id -/

def hexChar (n : Nat) : Char := if n < 10 then Char.ofNat (48 + n) else Char.ofNat (87 + n)

def byteHex (b : Nat) : String := String.mk [hexChar (b / 16), hexChar (b % 16)]

def bytesHex (bs : List Nat) : String := String.join (bs.map byteHex)

def uuidFormat (bs : List Nat) : String :=
  bytesHex (bs.take 4) ++ "-" ++ bytesHex ((bs.drop 4).take 2) ++ "-"
    ++ bytesHex ((bs.drop 6).take 2) ++ "-" ++ bytesHex ((bs.drop 8).take 2) ++ "-"
    ++ bytesHex (bs.drop 10)

/-- `pdf_id = str(uuid.UUID(bytes=hashlib.sha256(pdf_binary).digest()[:16]))`
(`src/main.py` lines 63-64, `recruit_assist/main.py` lines 63-64). -/
def pdfId (bytes : List Nat) : String := uuidFormat ((sha256 bytes).take 16)

/-! ### PDF text extraction (`extract_text_from_pdf`) -/

/-- A parsed PDF document as exposed by the external `fitz` backend:
`pages` lists each page's plain-text rendering (`get_text("text")`) in
page order. -/
structure PdfDoc where
  pages : List String
deriving DecidableEq

def PdfDoc.page_count (d : PdfDoc) : Nat := d.pages.length

def PdfDoc.load_page (d : PdfDoc) (page_num : Nat) : String := d.pages.getD page_num ""

/-- `extract_text_from_pdf` (`src/main.py` lines 103-108, identical in
`recruit_assist/main.py` lines 113-118 and `workshop-1/main.py` lines 99-104):
joins `load_page(page_num).get_text("text")` over `range(page_count)` with
the empty separator. -/
def extract_text_from_pdf (pdf_doc : PdfDoc) : String :=
  String.join ((List.range pdf_doc.page_count).map (fun page_num => pdf_doc.load_page page_num))

/-! ### Content-addressed upload cache (`upload_pdf`) -/

structure UploadFile where
  filename : String
  content_type : String
  bytes : List Nat
deriving DecidableEq

inductive SrcUploadOutcome
  | invalidFile
  | storageUnavailable
  | ok (pdf_id : String)
deriving DecidableEq

structure SrcUploadResult where
  outcome : SrcUploadOutcome
  store : List (String × String)
  extractions : Nat
  insertedId : Option String
deriving DecidableEq

/-- `upload_pdf` from `src/main.py` lines 56-80. `fitzOpen` models the
external `fitz.open(stream=..., filetype="pdf")` parser, `hasDict` models
`hasattr(app, "pdf_texts")`, `store` models the `app.pdf_texts` mapping
from pdf id to extracted text, and `none` for `file` models a falsy
`pdf_file`. `extractions` counts the calls to `extract_text_from_pdf`
made by this request and `insertedId` records a cache-miss insert. -/
def Src.upload_pdf (fitzOpen : List Nat → PdfDoc) (hasDict : Bool)
    (store : List (String × String)) (file : Option UploadFile) : SrcUploadResult :=
  match file with
  | none => ⟨.invalidFile, store, 0, none⟩
  | some f =>
    if f.content_type != "application/pdf" then ⟨.invalidFile, store, 0, none⟩
    else
      let pdf_id := pdfId f.bytes
      if !hasDict then ⟨.storageUnavailable, store, 0, none⟩
      else
        match store.lookup pdf_id with
        | some _ => ⟨.ok pdf_id, store, 0, none⟩
        | none =>
            ⟨.ok pdf_id, (pdf_id, extract_text_from_pdf (fitzOpen f.bytes)) :: store, 1,
             some pdf_id⟩

/-- One row of the `pdfs` table in `recruit_assist/main.py`. -/
structure PdfRow where
  filename : String
  text : String
deriving DecidableEq

inductive RAUploadOutcome
  | invalidFile
  | dbError
  | ok (pdf_id : String)
deriving DecidableEq

structure RAUploadResult where
  outcome : RAUploadOutcome
  store : List (String × PdfRow)
  extractions : Nat
  insertedId : Option String
deriving DecidableEq

/-- `upload_pdf` from `recruit_assist/main.py` lines 56-90. `dbFails`
models a `sqlite3.Error` raised while connecting or at the `SELECT`, before
any extraction work; that path rolls back, so the store is unchanged. -/
def RecruitAssist.upload_pdf (fitzOpen : List Nat → PdfDoc) (dbFails : Bool)
    (store : List (String × PdfRow)) (file : Option UploadFile) : RAUploadResult :=
  match file with
  | none => ⟨.invalidFile, store, 0, none⟩
  | some f =>
    if f.content_type != "application/pdf" then ⟨.invalidFile, store, 0, none⟩
    else if dbFails then ⟨.dbError, store, 0, none⟩
    else
      let pdf_id := pdfId f.bytes
      match store.lookup pdf_id with
      | some _ => ⟨.ok pdf_id, store, 0, none⟩
      | none =>
          ⟨.ok pdf_id,
           (pdf_id, ⟨f.filename, extract_text_from_pdf (fitzOpen f.bytes)⟩) :: store, 1,
           some pdf_id⟩

/-- One value of the `UPLOADS` mapping in `workshop-1/main.py`. -/
structure W1PdfInfo where
  filename : String
  size_bytes : Nat
  content_type : String
  text : String
deriving DecidableEq

inductive W1UploadOutcome
  | invalidFile
  | ok (pdf_id : String)
deriving DecidableEq

/-- `upload_pdf` from `workshop-1/main.py` lines 63-78: the id is
`str(uuid.uuid4())`, a fresh random UUID modelled as the `freshId` input
supplied by the environment, and every upload extracts and stores anew. -/
def Workshop1.upload_pdf (fitzOpen : List Nat → PdfDoc) (freshId : String)
    (uploads : List (String × W1PdfInfo)) (f : UploadFile) :
    W1UploadOutcome × List (String × W1PdfInfo) :=
  if f.content_type != "application/pdf" then (.invalidFile, uploads)
  else
    (.ok freshId,
     (freshId,
      ⟨f.filename, f.bytes.length, f.content_type,
       extract_text_from_pdf (fitzOpen f.bytes)⟩) :: uploads)

/-- A whole sequence of `src/main.py` upload requests run in order against
a shared `app.pdf_texts` store; returns the chronological list of cache
inserts (one entry per insert, the inserted document id). -/
def Src.runUploads (fitzOpen : List Nat → PdfDoc) :
    List (Option UploadFile) → List (String × String) → List String
  | [], _ => []
  | f :: fs, store =>
      (Src.upload_pdf fitzOpen true store f).insertedId.toList
        ++ Src.runUploads fitzOpen fs (Src.upload_pdf fitzOpen true store f).store

/-- A whole sequence of `recruit_assist/main.py` upload requests run in
order against the shared `pdfs` table; each request carries its own
storage-failure flag. Returns the chronological list of cache inserts. -/
def RecruitAssist.runUploads (fitzOpen : List Nat → PdfDoc) :
    List (Bool × Option UploadFile) → List (String × PdfRow) → List String
  | [], _ => []
  | bf :: fs, store =>
      (RecruitAssist.upload_pdf fitzOpen bf.1 store bf.2).insertedId.toList
        ++ RecruitAssist.runUploads fitzOpen fs
            (RecruitAssist.upload_pdf fitzOpen bf.1 store bf.2).store

def countOcc (d : String) : List String → Nat
  | [] => 0
  | x :: xs => (if x = d then 1 else 0) + countOcc d xs

/-! ### Streaming answer pipeline -/

/-- A chunk arriving from the remote model stream: `none` models a chunk
without a usable `text` attribute, `some s` a chunk whose text is `s`. -/
abbrev RawChunk := Option String

/-- The scripted behaviour of one remote streaming call: the chunks it
delivers, and `some e` when it raises exception `e` after delivering
them. -/
structure RemoteStream where
  chunks : List RawChunk
  error : Option String
deriving DecidableEq

/-- The chunk filter of the `get_answer` streaming loop:
`if hasattr(chunk, "text") and chunk.text: yield chunk.text`. -/
def cleanChunk : RawChunk → Option String
  | some s => if s != "" then some s else none
  | none => none

/-- `get_answer` from `src/main.py` lines 173-191: forwards each non-empty
chunk text and, if the remote call raises, yields the single sentinel
`"Error during LLM generation: <cause>"`. -/
def Src.get_answer (rs : RemoteStream) : List String :=
  rs.chunks.filterMap cleanChunk
    ++ (match rs.error with
        | some e => ["Error during LLM generation: " ++ e]
        | none => [])

/-- `get_answer` from `recruit_assist/main.py` lines 197-215: as in
`src/main.py`, except the sentinel is the fixed string
`"Error during LLM generation"` with no colon and no cause. -/
def RecruitAssist.get_answer (rs : RemoteStream) : List String :=
  rs.chunks.filterMap cleanChunk
    ++ (match rs.error with
        | some _ => ["Error during LLM generation"]
        | none => [])

/-- A server-sent event as observed by the client. -/
inductive Event
  | message (s : String)
  | errorEvent (s : String)
  | close
deriving DecidableEq

def closeCount : List Event → Nat
  | [] => 0
  | e :: es => (if e = Event.close then 1 else 0) + closeCount es

/-- Python `str.startswith`. -/
def pyStartsWith (s pat : String) : Bool := pat.data.isPrefixOf s.data

/-- One `log_interaction` call: the row data passed to the interactions
table (pdf reference, query, response). -/
structure InteractionWrite where
  pdf_ref : String
  query : String
  response : String
deriving DecidableEq

/-- The `finally` logging step of `src/main.py` lines 162-167. -/
def Src.finalizeWrites (pdf_filename query acc : String) : List InteractionWrite :=
  if acc != "" then
    if !pyStartsWith acc "Error during LLM generation:" && !pyStartsWith acc "Error:" then
      [⟨pdf_filename, query, acc⟩]
    else []
  else []

/-- The `finally` logging step of `recruit_assist/main.py` lines 184-189
(the interaction row references the pdf id rather than the filename). -/
def RecruitAssist.finalizeWrites (pdf_id query acc : String) : List InteractionWrite :=
  if acc != "" then
    if !pyStartsWith acc "Error during LLM generation:" && !pyStartsWith acc "Error:" then
      [⟨pdf_id, query, acc⟩]
    else []
  else []

/-- Outcome of the `app.pdf_texts` lookup in `src/main.py` lines 141-153. -/
inductive Lookup
  | noDict
  | missing
  | found (text : String)
deriving DecidableEq

/-- What one streaming session produces: the events sent to the client, in
order, and the `log_interaction` calls made, in order. -/
structure SessionResult where
  events : List Event
  writes : List InteractionWrite
deriving DecidableEq

/-- `event_generator` from `src/main.py` lines 138-168: early returns on
lookup failure, then the streaming loop, with the `finally` block running
the logging step and yielding the terminal close event on every path. -/
def Src.event_generator (lookup : Lookup) (rs : RemoteStream)
    (pdf_filename query : String) : SessionResult :=
  match lookup with
  | .noDict =>
      ⟨[.message "Error: PDF text retrieval failed.", .close],
       Src.finalizeWrites pdf_filename query ""⟩
  | .missing =>
      ⟨[.errorEvent "Error: Could not find PDF text associated with this session.", .close],
       Src.finalizeWrites pdf_filename query ""⟩
  | .found _ =>
      let emitted := (Src.get_answer rs).filter (fun chunk => chunk != "")
      ⟨emitted.map Event.message ++ [Event.close],
       Src.finalizeWrites pdf_filename query (String.join emitted)⟩

/-- Outcome of the `SELECT text FROM pdfs` lookup in
`recruit_assist/main.py` lines 152-173: a storage error, no row, or a row
whose `text` column may be NULL. -/
inductive DbResult
  | sqlError
  | noRow
  | row (text : Option String)
deriving DecidableEq

/-- `event_generator` from `recruit_assist/main.py` lines 148-192: the
lookup-failure branches yield an error event and return before the
`try/finally` that yields the close event, so those paths end the stream
without a close event. -/
def RecruitAssist.event_generator (db : DbResult) (rs : RemoteStream)
    (pdf_id query : String) : SessionResult :=
  match db with
  | .sqlError =>
      ⟨[.errorEvent "Error retrieving PDF text from database"], []⟩
  | .noRow =>
      ⟨[.errorEvent
          "Error: Could not find PDF text associated with this session in the database."], []⟩
  | .row none => ⟨[.close], []⟩
  | .row (some _) =>
      let emitted := (RecruitAssist.get_answer rs).filter (fun chunk => chunk != "")
      ⟨emitted.map Event.message ++ [Event.close],
       RecruitAssist.finalizeWrites pdf_id query (String.join emitted)⟩

/-- The one-shot model answer of `workshop-1/main.py` lines 138-150:
`{"success": True, "text": response.text}` or, on any exception,
`{"success": False, "text": str(e)}`. -/
structure ModelAnswer where
  success : Bool
  text : String
deriving DecidableEq

def Workshop1.get_answer (outcome : Except String String) : ModelAnswer :=
  match outcome with
  | .ok t => ⟨true, t⟩
  | .error e => ⟨false, e⟩

/-- `answer_question` from `workshop-1/main.py` lines 120-135: if the pdf
is found, `log_interaction` is called unconditionally with the answer
text, whether or not it encodes a failure. Returns the log calls made. -/
def Workshop1.answer_question (uploads : List (String × W1PdfInfo))
    (pdf_id query : String) (model : Except String String) : List InteractionWrite :=
  match uploads.lookup pdf_id with
  | none => []
  | some pdf_info => [⟨pdf_info.filename, query, (Workshop1.get_answer model).text⟩]

/-! ### Interaction logger (`log_interaction`) -/

/-- Where, if anywhere, storage fails during one `log_interaction` call:
`connectFails` models `sqlite3.connect` itself raising (storage
unavailable, before `conn` is bound); `writeFails` models a
`sqlite3.Error` from cursor/execute/commit after `conn` is bound. -/
inductive LogDbFailure
  | noFailure
  | connectFails
  | writeFails
deriving DecidableEq

/-- `log_interaction` from `src/main.py` lines 205-215: there is no
exception handler, so either storage failure raises out of the function
(`Except.error`); otherwise one row is inserted and committed. -/
def Src.log_interaction (fail : LogDbFailure) (pdf_name query response : String) :
    Except Unit (List InteractionWrite) :=
  match fail with
  | .noFailure => .ok [⟨pdf_name, query, response⟩]
  | .connectFails => .error ()
  | .writeFails => .error ()

/-- `log_interaction` from `recruit_assist/main.py` lines 229-246: `conn`
is assigned only inside the `try`, so when `sqlite3.connect` itself
raises, the `except` handler's `if conn:` hits an unbound local and an
`UnboundLocalError` propagates out of the function (`Except.error`); a
`sqlite3.Error` raised after `conn` is bound is caught, logged as a
warning and rolled back, returning normally with no row written. -/
def RecruitAssist.log_interaction (fail : LogDbFailure) (pdf_id query response : String) :
    Except Unit (List InteractionWrite) :=
  match fail with
  | .noFailure => .ok [⟨pdf_id, query, response⟩]
  | .connectFails => .error ()
  | .writeFails => .ok []

/-- The accumulated response text of a session whose remote stream
delivers `chunks` and does not raise. -/
def accOf (chunks : List RawChunk) : String :=
  String.join ((chunks.filterMap cleanChunk).filter (fun chunk => chunk != ""))

/-- A concrete stand-in for the external `fitz` parser, used to
instantiate universally quantified theorems at witnesses. -/
def samplePdfBackend : List Nat → PdfDoc := fun _ => ⟨["sample page text"]⟩

/-- The error-sentinel test of the finalizing step, applied to a written
interaction row: true when the response does not begin with either
recognised sentinel marker. -/
def noSentinel (w : InteractionWrite) : Bool :=
  !pyStartsWith w.response "Error during LLM generation:"
    && !pyStartsWith w.response "Error:"

/-- Sanity check of the SHA-256 embedding against the standard test vector
for the empty message. -/
theorem sha256_empty_vector :
    sha256 [] =
      [227, 176, 196, 66, 152, 252, 28, 20, 154, 251, 244, 200, 153, 111, 185, 36,
       39, 174, 65, 228, 100, 155, 147, 76, 164, 149, 153, 27, 120, 82, 184, 85] := by
  decide

/-- Sanity check of the SHA-256 embedding against the standard test vector
for the message `"abc"`. -/
theorem sha256_abc_vector :
    sha256 [97, 98, 99] =
      [186, 120, 22, 191, 143, 1, 207, 234, 65, 65, 64, 222, 93, 174, 34, 35,
       176, 3, 97, 163, 150, 23, 122, 156, 180, 16, 255, 97, 242, 0, 21, 173] := by
  decide

/-! ### General lemmas -/

theorem getD_range_map (l : List String) :
    (List.range l.length).map (fun i => l.getD i "") = l := by
  induction l with
  | nil => rfl
  | cons a t ih =>
      rw [List.length_cons, List.range_succ_eq_map, List.map_cons, List.map_map]
      simpa [Function.comp_def, List.getD_cons_succ, List.getD_cons_zero] using ih

theorem countOcc_append (d : String) (xs ys : List String) :
    countOcc d (xs ++ ys) = countOcc d xs + countOcc d ys := by
  induction xs with
  | nil => simp [countOcc]
  | cons x t ih => simp [countOcc, ih, Nat.add_assoc]

theorem closeCount_messages_close (l : List String) :
    closeCount (l.map Event.message ++ [Event.close]) = 1 := by
  induction l with
  | nil => rfl
  | cons a t ih => simpa [closeCount] using ih

theorem mem_filterMap_cleanChunk_ne (a : String) (chunks : List RawChunk)
    (ha : a ∈ chunks.filterMap cleanChunk) : (a != "") = true := by
  rcases List.mem_filterMap.mp ha with ⟨c, _, hc⟩
  cases c with
  | none => simp [cleanChunk] at hc
  | some s =>
      simp only [cleanChunk] at hc
      split at hc
      next hs =>
        injection hc with h
        subst h
        exact hs
      next => simp at hc

theorem filter_nonempty_filterMap (chunks : List RawChunk) :
    (chunks.filterMap cleanChunk).filter (fun chunk => chunk != "")
      = chunks.filterMap cleanChunk :=
  List.filter_eq_self.mpr (fun a ha => mem_filterMap_cleanChunk_ne a chunks ha)

theorem filterMap_cleanChunk_map_some (texts : List String) (h : ∀ s ∈ texts, s ≠ "") :
    (texts.map some).filterMap cleanChunk = texts := by
  induction texts with
  | nil => rfl
  | cons a t ih =>
      have ha : (a != "") = true := bne_iff_ne.mpr (h a (List.mem_cons_self a t))
      simp only [List.map_cons, List.filterMap_cons, cleanChunk, ha, if_true]
      rw [ih (fun s hs => h s (List.mem_cons_of_mem _ hs))]

theorem str_append_ne_empty_left (s t : String) (h : s ≠ "") : s ++ t ≠ "" := by
  intro hc
  apply h
  have hd : s.data ++ t.data = [] := by
    have h0 := congrArg String.data hc
    rwa [String.data_append] at h0
  have h1 : s.data = [] := (List.append_eq_nil.mp hd).1
  cases s with
  | mk d =>
      simp only [String.data] at h1
      subst h1
      rfl

theorem str_append_ne_empty_right (s t : String) (h : t ≠ "") : s ++ t ≠ "" := by
  intro hc
  apply h
  have hd : s.data ++ t.data = [] := by
    have h0 := congrArg String.data hc
    rwa [String.data_append] at h0
  have h1 : t.data = [] := (List.append_eq_nil.mp hd).2
  cases t with
  | mk d =>
      simp only [String.data] at h1
      subst h1
      rfl

theorem join_concat (l : List String) (s : String) :
    String.join (l ++ [s]) = String.join l ++ s := by
  simp [String.join, List.foldl_append]

theorem accOf_eq (chunks : List RawChunk) :
    accOf chunks = String.join (chunks.filterMap cleanChunk) := by
  unfold accOf
  rw [filter_nonempty_filterMap]

theorem src_emitted_no_error (chunks : List RawChunk) :
    (Src.get_answer ⟨chunks, none⟩).filter (fun chunk => chunk != "")
      = chunks.filterMap cleanChunk := by
  show ((chunks.filterMap cleanChunk) ++ []).filter (fun chunk => chunk != "")
      = chunks.filterMap cleanChunk
  rw [List.append_nil]
  exact filter_nonempty_filterMap chunks

theorem ra_emitted_no_error (chunks : List RawChunk) :
    (RecruitAssist.get_answer ⟨chunks, none⟩).filter (fun chunk => chunk != "")
      = chunks.filterMap cleanChunk := by
  show ((chunks.filterMap cleanChunk) ++ []).filter (fun chunk => chunk != "")
      = chunks.filterMap cleanChunk
  rw [List.append_nil]
  exact filter_nonempty_filterMap chunks

/-! ### Claim C9 -/

/-- C9: for every well-formed PDF, the extracted text equals the
concatenation of each page's plain-text rendering, in page order, with no
separator inserted between pages. -/
theorem claim_C9_extract_text_concat (d : PdfDoc) :
    extract_text_from_pdf d = String.join d.pages := by
  show String.join ((List.range d.pages.length).map (fun i => d.pages.getD i "")) = _
  rw [getD_range_map]

/-! ### Claim C7 -/

/-- C7 counterexample: the claim ("for every input, a storage failure is
caught inside the logging operation and never propagates") fails in both
cited variants — in `recruit_assist/main.py` a connect-time failure
(storage unavailable) escapes `log_interaction` through the unbound
`conn` in the `except` handler, and in `src/main.py`, which has no
handler at all, even a write failure escapes. -/
theorem claim_C7_counterexample :
    RecruitAssist.log_interaction .connectFails "doc.pdf" "question" "answer"
        = Except.error ()
      ∧ Src.log_interaction .writeFails "doc.pdf" "question" "answer" = Except.error () :=
  ⟨rfl, rfl⟩

/-- C7 amended: in `recruit_assist/main.py` only a storage failure that
occurs after the connection is established (write/commit error) is caught
inside `log_interaction`, rolled back and reported as a warning — the
call returns normally and writes no row; a connection-time failure
(storage unavailable) still propagates out of the function, via the
unbound `conn` in the `except` handler. In `src/main.py` the function has
no handler, so every storage failure propagates, and only a failure-free
call returns normally with its one row. -/
theorem claim_C7_amended :
    (∀ p q r : String,
        RecruitAssist.log_interaction .writeFails p q r = Except.ok []
          ∧ RecruitAssist.log_interaction .noFailure p q r = Except.ok [⟨p, q, r⟩]
          ∧ RecruitAssist.log_interaction .connectFails p q r = Except.error ())
      ∧ (∀ p q r : String,
        Src.log_interaction .connectFails p q r = Except.error ()
          ∧ Src.log_interaction .writeFails p q r = Except.error ()
          ∧ Src.log_interaction .noFailure p q r = Except.ok [⟨p, q, r⟩]) := by
  constructor
  · intro p q r
    exact ⟨rfl, rfl, rfl⟩
  · intro p q r
    exact ⟨rfl, rfl, rfl⟩

/-! ### Claim C2 -/

/-- C2 counterexample: in `recruit_assist/main.py`, the lookup-failure
branch of `event_generator` returns after the error event without ever
yielding the terminal close event, so that session observes zero close
events — refuting "the terminal close event is emitted exactly once on
every exit path, including early return on lookup failure". -/
theorem claim_C2_counterexample :
    (RecruitAssist.event_generator .noRow ⟨[], none⟩ "pid" "q").events
        = [Event.errorEvent
            "Error: Could not find PDF text associated with this session in the database."]
      ∧ closeCount (RecruitAssist.event_generator .noRow ⟨[], none⟩ "pid" "q").events = 0 :=
  ⟨rfl, rfl⟩

/-- C2 amended: in `src/main.py` the terminal close event is emitted
exactly once, after all data chunks, on every exit path (success, empty
stream, remote failure, early return on lookup failure), the log write
itself assumed not to raise; in `recruit_assist/main.py` this holds on
every path that reaches the streaming stage, but the early returns on
lookup failure (missing row or storage error) end the stream with zero
close events. -/
theorem claim_C2_amended :
    (∀ (lookup : Lookup) (rs : RemoteStream) (f q : String),
        closeCount (Src.event_generator lookup rs f q).events = 1
          ∧ (Src.event_generator lookup rs f q).events.getLast? = some Event.close)
      ∧ (∀ (ot : Option String) (rs : RemoteStream) (p q : String),
        closeCount (RecruitAssist.event_generator (.row ot) rs p q).events = 1
          ∧ (RecruitAssist.event_generator (.row ot) rs p q).events.getLast?
              = some Event.close)
      ∧ (∀ (rs : RemoteStream) (p q : String),
        closeCount (RecruitAssist.event_generator .sqlError rs p q).events = 0
          ∧ closeCount (RecruitAssist.event_generator .noRow rs p q).events = 0) := by
  refine ⟨?_, ?_, ?_⟩
  · intro lookup rs f q
    cases lookup with
    | noDict => exact ⟨rfl, rfl⟩
    | missing => exact ⟨rfl, rfl⟩
    | found t => exact ⟨closeCount_messages_close _, List.getLast?_concat _⟩
  · intro ot rs p q
    cases ot with
    | none => exact ⟨rfl, rfl⟩
    | some t => exact ⟨closeCount_messages_close _, List.getLast?_concat _⟩
  · intro rs p q
    exact ⟨rfl, rfl⟩

/-! ### Claim C6 -/

/-- C6: each non-empty chunk is forwarded and accumulated in arrival
order, empty or textless chunks are skipped; on the scripted stream
`["The ", "cat ", "sat."]` the client-observed concatenation is
`"The cat sat."` and exactly one Interaction Record with that response is
written (shown for `src/main.py` in general and for the scripted stream in
both streaming variants, also with interleaved empty and textless
chunks). -/
theorem claim_C6_stream_accumulation :
    (∀ (t f q : String) (chunks : List RawChunk),
        (Src.event_generator (.found t) ⟨chunks, none⟩ f q).events
            = (chunks.filterMap cleanChunk).map Event.message ++ [Event.close]
          ∧ (Src.event_generator (.found t) ⟨chunks, none⟩ f q).writes
            = Src.finalizeWrites f q (accOf chunks))
      ∧ (Src.event_generator (.found "ref text")
            ⟨[some "The ", some "cat ", some "sat."], none⟩ "doc.pdf" "What?"
          = ⟨[Event.message "The ", Event.message "cat ", Event.message "sat.", Event.close],
             [⟨"doc.pdf", "What?", "The cat sat."⟩]⟩)
      ∧ (Src.event_generator (.found "ref text")
            ⟨[some "The ", none, some "", some "cat ", some "sat."], none⟩ "doc.pdf" "What?"
          = ⟨[Event.message "The ", Event.message "cat ", Event.message "sat.", Event.close],
             [⟨"doc.pdf", "What?", "The cat sat."⟩]⟩)
      ∧ (RecruitAssist.event_generator (.row (some "ref text"))
            ⟨[some "The ", some "cat ", some "sat."], none⟩ "pid" "What?"
          = ⟨[Event.message "The ", Event.message "cat ", Event.message "sat.", Event.close],
             [⟨"pid", "What?", "The cat sat."⟩]⟩) := by
  refine ⟨?_, rfl, rfl, rfl⟩
  intro t f q chunks
  constructor
  · show ((Src.get_answer ⟨chunks, none⟩).filter (fun chunk => chunk != "")).map Event.message
        ++ [Event.close] = _
    rw [src_emitted_no_error]
  · show Src.finalizeWrites f q
        (String.join ((Src.get_answer ⟨chunks, none⟩).filter (fun chunk => chunk != ""))) = _
    rw [src_emitted_no_error, accOf_eq]

/-! ### Claim C10 -/

theorem finalize_suppressed (ref q acc : String)
    (h : (pyStartsWith acc "Error during LLM generation:"
          || pyStartsWith acc "Error:") = true) :
    Src.finalizeWrites ref q acc = [] ∧ RecruitAssist.finalizeWrites ref q acc = [] := by
  have hcond : (!pyStartsWith acc "Error during LLM generation:"
      && !pyStartsWith acc "Error:") = false := by
    rcases Bool.or_eq_true_iff.mp h with h1 | h1 <;> simp [h1]
  constructor
  · simp [Src.finalizeWrites, hcond]
  · simp [RecruitAssist.finalizeWrites, hcond]

/-- C10: the error-response decision in the finalizer is pure
string-prefix matching on the accumulated text: in a session that
completes with no remote failure, if the genuine accumulated model answer
begins with a recognised sentinel marker, no Interaction Record is
written (both streaming variants). -/
theorem claim_C10_genuine_answer_suppressed
    (t f q : String) (chunks : List RawChunk)
    (h : (pyStartsWith (accOf chunks) "Error during LLM generation:"
          || pyStartsWith (accOf chunks) "Error:") = true) :
    (Src.event_generator (.found t) ⟨chunks, none⟩ f q).writes = []
      ∧ (RecruitAssist.event_generator (.row (some t)) ⟨chunks, none⟩ f q).writes = [] := by
  have hs := finalize_suppressed f q (accOf chunks) h
  constructor
  · show Src.finalizeWrites f q
        (String.join ((Src.get_answer ⟨chunks, none⟩).filter (fun chunk => chunk != ""))) = []
    rw [src_emitted_no_error, ← accOf_eq]
    exact hs.1
  · show RecruitAssist.finalizeWrites f q
        (String.join ((RecruitAssist.get_answer ⟨chunks, none⟩).filter
          (fun chunk => chunk != ""))) = []
    rw [ra_emitted_no_error, ← accOf_eq]
    exact hs.2

/-- C10 witness: a concrete successful session whose genuine answer begins
with `"Error:"` writes no Interaction Record. -/
theorem claim_C10_witness :
    (pyStartsWith (accOf [some "Error: the paper is about errors."])
          "Error during LLM generation:"
        || pyStartsWith (accOf [some "Error: the paper is about errors."]) "Error:") = true
      ∧ (Src.event_generator (.found "ref") ⟨[some "Error: the paper is about errors."], none⟩
            "doc.pdf" "q").writes = [] :=
  ⟨by decide,
   (claim_C10_genuine_answer_suppressed "ref" "doc.pdf" "q"
      [some "Error: the paper is about errors."] (by decide)).1⟩

/-! ### Claim C1 -/

/-- C1 counterexample: in `src/main.py`, when the remote stream raises
after emitting `"Partial"`, the accumulated text is the partial chunk
followed by the sentinel, which does not begin with a sentinel marker, so
an Interaction Record IS written — refuting "no Interaction Record is
written for that session". -/
theorem claim_C1_counterexample :
    (Src.event_generator (.found "ref text") ⟨[some "Partial"], some "boom"⟩
        "doc.pdf" "q").writes
      = [⟨"doc.pdf", "q", "PartialError during LLM generation: boom"⟩] := by
  decide

/-- C1 amended: if the remote stream raises after emitting one or more
non-empty chunks, the forwarded output is the already-emitted chunks
followed by exactly one error-sentinel chunk, and — whenever the
accumulated text (chunks then sentinel) does not itself begin with a
sentinel marker — an Interaction Record IS written whose response is that
accumulated text. The record is suppressed only when the sentinel is the
prefix of the accumulated text, i.e. when the failure happens before any
chunk was emitted. -/
theorem claim_C1_amended (e t f q : String) (texts : List String)
    (h1 : ∀ s ∈ texts, s ≠ "")
    (h2 : pyStartsWith (String.join texts ++ ("Error during LLM generation: " ++ e))
            "Error during LLM generation:" = false)
    (h3 : pyStartsWith (String.join texts ++ ("Error during LLM generation: " ++ e))
            "Error:" = false) :
    (Src.event_generator (.found t) ⟨texts.map some, some e⟩ f q).events
        = texts.map Event.message
            ++ [Event.message ("Error during LLM generation: " ++ e), Event.close]
      ∧ (Src.event_generator (.found t) ⟨texts.map some, some e⟩ f q).writes
        = [⟨f, q, String.join texts ++ ("Error during LLM generation: " ++ e)⟩] := by
  have hsent : ("Error during LLM generation: " ++ e) ≠ "" :=
    str_append_ne_empty_left _ _ (by decide)
  have hemit : (Src.get_answer ⟨texts.map some, some e⟩).filter (fun chunk => chunk != "")
      = texts ++ ["Error during LLM generation: " ++ e] := by
    show ((texts.map some).filterMap cleanChunk
        ++ ["Error during LLM generation: " ++ e]).filter (fun chunk => chunk != "") = _
    rw [filterMap_cleanChunk_map_some texts h1, List.filter_append]
    have hl : texts.filter (fun chunk => chunk != "") = texts :=
      List.filter_eq_self.mpr (fun a ha => bne_iff_ne.mpr (h1 a ha))
    have hr : (["Error during LLM generation: " ++ e] : List String).filter
        (fun chunk => chunk != "") = ["Error during LLM generation: " ++ e] := by
      simp [bne_iff_ne.mpr hsent]
    rw [hl, hr]
  constructor
  · show ((Src.get_answer ⟨texts.map some, some e⟩).filter
        (fun chunk => chunk != "")).map Event.message ++ [Event.close] = _
    rw [hemit, List.map_append, List.append_assoc]
    rfl
  · show Src.finalizeWrites f q
        (String.join ((Src.get_answer ⟨texts.map some, some e⟩).filter
          (fun chunk => chunk != ""))) = _
    rw [hemit, join_concat]
    have hne : ((String.join texts ++ ("Error during LLM generation: " ++ e)) != "") = true :=
      bne_iff_ne.mpr (str_append_ne_empty_right _ _ hsent)
    simp [Src.finalizeWrites, hne, h2, h3]

/-- C1 witness: the amended statement at the concrete session of the
counterexample — stream raises after `"Partial"`, the client sees
`"Partial"` then the sentinel then close, and the record is written. -/
theorem claim_C1_witness :
    (Src.event_generator (.found "ref") ⟨["Partial"].map some, some "boom"⟩
          "doc.pdf" "q").events
        = ["Partial"].map Event.message
            ++ [Event.message ("Error during LLM generation: " ++ "boom"), Event.close]
      ∧ (Src.event_generator (.found "ref") ⟨["Partial"].map some, some "boom"⟩
          "doc.pdf" "q").writes
        = [⟨"doc.pdf", "q", String.join ["Partial"] ++ ("Error during LLM generation: " ++ "boom")⟩] :=
  claim_C1_amended "boom" "ref" "doc.pdf" "q" ["Partial"] (by decide) (by decide) (by decide)

/-! ### Claim C3 -/

theorem src_finalize_bound (f q acc : String) :
    (Src.finalizeWrites f q acc).length ≤ 1
      ∧ (Src.finalizeWrites f q acc).all noSentinel = true := by
  unfold Src.finalizeWrites
  split
  · split
    next hcond =>
        refine ⟨by simp, ?_⟩
        simp [List.all_cons, List.all_nil, noSentinel]
        have hc := Bool.and_eq_true_iff.mp hcond
        exact ⟨by simpa using hc.1, by simpa using hc.2⟩
    next => simp
  · simp

theorem ra_finalize_bound (p q acc : String) :
    (RecruitAssist.finalizeWrites p q acc).length ≤ 1
      ∧ (RecruitAssist.finalizeWrites p q acc).all noSentinel = true := by
  unfold RecruitAssist.finalizeWrites
  split
  · split
    next hcond =>
        refine ⟨by simp, ?_⟩
        simp [List.all_cons, List.all_nil, noSentinel]
        have hc := Bool.and_eq_true_iff.mp hcond
        exact ⟨by simpa using hc.1, by simpa using hc.2⟩
    next => simp
  · simp

/-- C3 counterexample: in `workshop-1/main.py`, `answer_question` logs the
answer unconditionally, so a genuine answer beginning with `"Error:"` is
still written — refuting "written only if the final accumulated response
text does not begin with a recognized error-sentinel prefix". -/
theorem claim_C3_counterexample :
    Workshop1.answer_question [("pid1", ⟨"doc.pdf", 3, "application/pdf", "text"⟩)]
        "pid1" "q" (Except.ok "Error: see page 2.")
      = [⟨"doc.pdf", "q", "Error: see page 2."⟩]
    ∧ pyStartsWith "Error: see page 2." "Error:" = true := by
  exact ⟨rfl, rfl⟩

/-- C3 amended: in both streaming variants (`src/main.py`,
`recruit_assist/main.py`), per answered question at most one Interaction
Record is written and every written record's response begins with neither
recognised sentinel marker; in `workshop-1/main.py` at most one record is
written per answered question, but it is written unconditionally,
regardless of sentinel prefixes. -/
theorem claim_C3_amended :
    (∀ (lookup : Lookup) (rs : RemoteStream) (f q : String),
        (Src.event_generator lookup rs f q).writes.length ≤ 1
          ∧ (Src.event_generator lookup rs f q).writes.all noSentinel = true)
      ∧ (∀ (db : DbResult) (rs : RemoteStream) (p q : String),
        (RecruitAssist.event_generator db rs p q).writes.length ≤ 1
          ∧ (RecruitAssist.event_generator db rs p q).writes.all noSentinel = true)
      ∧ (∀ (uploads : List (String × W1PdfInfo)) (pid q : String)
          (model : Except String String),
        (Workshop1.answer_question uploads pid q model).length ≤ 1) := by
  refine ⟨?_, ?_, ?_⟩
  · intro lookup rs f q
    cases lookup with
    | noDict => exact src_finalize_bound f q ""
    | missing => exact src_finalize_bound f q ""
    | found t =>
        exact src_finalize_bound f q
          (String.join ((Src.get_answer rs).filter (fun chunk => chunk != "")))
  · intro db rs p q
    cases db with
    | sqlError => exact ⟨Nat.zero_le 1, rfl⟩
    | noRow => exact ⟨Nat.zero_le 1, rfl⟩
    | row ot =>
        cases ot with
        | none => exact ⟨Nat.zero_le 1, rfl⟩
        | some t =>
            exact ra_finalize_bound p q
              (String.join ((RecruitAssist.get_answer rs).filter (fun chunk => chunk != "")))
  · intro uploads pid q model
    show (match uploads.lookup pid with
      | none => ([] : List InteractionWrite)
      | some pdf_info => [⟨pdf_info.filename, q, (Workshop1.get_answer model).text⟩]).length ≤ 1
    cases uploads.lookup pid <;> simp

/-! ### Claim C8 -/

/-- C8: an upload whose declared content type is not the PDF MIME type is
rejected with the validation message before any hashing or extraction
work: the outcome is the validation rejection, the cache store is
unchanged, no extraction call is made and nothing is inserted (and the
upload handlers contain no logging call at all), in both `src/main.py`
(including the falsy-file case) and `recruit_assist/main.py`. -/
theorem claim_C8_content_type_gate :
    (∀ (fitzOpen : List Nat → PdfDoc) (hasDict : Bool) (store : List (String × String))
        (f : UploadFile), f.content_type ≠ "application/pdf" →
        Src.upload_pdf fitzOpen hasDict store (some f) = ⟨.invalidFile, store, 0, none⟩)
      ∧ (∀ (fitzOpen : List Nat → PdfDoc) (hasDict : Bool) (store : List (String × String)),
        Src.upload_pdf fitzOpen hasDict store none = ⟨.invalidFile, store, 0, none⟩)
      ∧ (∀ (fitzOpen : List Nat → PdfDoc) (dbFails : Bool) (store : List (String × PdfRow))
        (f : UploadFile), f.content_type ≠ "application/pdf" →
        RecruitAssist.upload_pdf fitzOpen dbFails store (some f)
          = ⟨.invalidFile, store, 0, none⟩) := by
  refine ⟨?_, fun _ _ _ => rfl, ?_⟩
  · intro fz hd store f h
    have hb : (f.content_type != "application/pdf") = true := bne_iff_ne.mpr h
    simp [Src.upload_pdf, hb]
  · intro fz db store f h
    have hb : (f.content_type != "application/pdf") = true := bne_iff_ne.mpr h
    simp [RecruitAssist.upload_pdf, hb]

/-- C8 witness: the gate at a concrete `text/plain` upload, in both
variants. -/
theorem claim_C8_witness :
    Src.upload_pdf samplePdfBackend true [("k", "v")]
        (some ⟨"notes.txt", "text/plain", [1, 2]⟩)
      = ⟨.invalidFile, [("k", "v")], 0, none⟩
    ∧ RecruitAssist.upload_pdf samplePdfBackend false []
        (some ⟨"notes.txt", "text/plain", [1, 2]⟩)
      = ⟨.invalidFile, [], 0, none⟩ :=
  ⟨claim_C8_content_type_gate.1 _ _ _ _ (by decide),
   claim_C8_content_type_gate.2.2 _ _ _ _ (by decide)⟩

/-! ### Claim C4 -/

/-- C4 counterexample: in `workshop-1/main.py` (cited line 68) the
document id is `str(uuid.uuid4())`, a fresh random value per upload, so
two uploads of byte-identical content receive whatever distinct ids the
environment draws — refuting "repeated uploads of b always yield the same
document_id" as a property of the whole program. -/
theorem claim_C4_counterexample :
    (Workshop1.upload_pdf samplePdfBackend "id-one" []
        ⟨"a.pdf", "application/pdf", [37, 80, 68, 70]⟩).1 = .ok "id-one"
      ∧ (Workshop1.upload_pdf samplePdfBackend "id-two" []
        ⟨"a.pdf", "application/pdf", [37, 80, 68, 70]⟩).1 = .ok "id-two"
      ∧ ("id-one" : String) ≠ "id-two" :=
  ⟨rfl, rfl, by decide⟩

/-- C4 amended: in `src/main.py` and `recruit_assist/main.py` the cache
key is the first 16 bytes of the SHA-256 digest of the raw bytes formatted
as a UUID string — a pure function of the bytes, so any accepted upload of
the same bytes yields the same `document_id` whatever the cache state, and
the two fixture byte sequences differing in one byte get different ids; in
`workshop-1/main.py` the id is a fresh random UUID per upload instead. -/
theorem claim_C4_amended :
    (∀ (fitzOpen : List Nat → PdfDoc) (store : List (String × String)) (f : UploadFile),
        f.content_type = "application/pdf" →
        (Src.upload_pdf fitzOpen true store (some f)).outcome = .ok (pdfId f.bytes))
      ∧ (∀ (fitzOpen : List Nat → PdfDoc) (store : List (String × PdfRow)) (f : UploadFile),
        f.content_type = "application/pdf" →
        (RecruitAssist.upload_pdf fitzOpen false store (some f)).outcome
          = .ok (pdfId f.bytes))
      ∧ pdfId [37, 80, 68, 70] ≠ pdfId [37, 80, 68, 71] := by
  refine ⟨?_, ?_, by decide⟩
  · intro fz store f h
    have hb : (f.content_type != "application/pdf") = false := by
      rw [h]
      exact bne_self_eq_false _
    simp only [Src.upload_pdf, hb, Bool.false_eq_true, if_false, Bool.not_true]
    cases hl : List.lookup (pdfId f.bytes) store <;> simp [hl]
  · intro fz store f h
    have hb : (f.content_type != "application/pdf") = false := by
      rw [h]
      exact bne_self_eq_false _
    simp only [RecruitAssist.upload_pdf, hb, Bool.false_eq_true, if_false]
    cases hl : List.lookup (pdfId f.bytes) store <;> simp [hl]

/-- C4 witness: the amended statement at a concrete accepted upload,
repeated against different cache states, always returning the same
content-derived id. -/
theorem claim_C4_witness :
    (Src.upload_pdf samplePdfBackend true []
        (some ⟨"a.pdf", "application/pdf", [1, 2]⟩)).outcome = .ok (pdfId [1, 2])
      ∧ (Src.upload_pdf samplePdfBackend true [("k", "v")]
        (some ⟨"a.pdf", "application/pdf", [1, 2]⟩)).outcome = .ok (pdfId [1, 2])
      ∧ (RecruitAssist.upload_pdf samplePdfBackend false []
        (some ⟨"a.pdf", "application/pdf", [1, 2]⟩)).outcome = .ok (pdfId [1, 2]) :=
  ⟨claim_C4_amended.1 _ _ _ rfl, claim_C4_amended.1 _ _ _ rfl,
   claim_C4_amended.2.1 _ _ _ rfl⟩

/-! ### Claim C5 -/

theorem src_upload_characterize (fz : List Nat → PdfDoc) (store : List (String × String))
    (file : Option UploadFile) :
    ((Src.upload_pdf fz true store file).store = store
        ∧ (Src.upload_pdf fz true store file).insertedId = none)
      ∨ ∃ id text, (Src.upload_pdf fz true store file).store = (id, text) :: store
          ∧ List.lookup id store = none
          ∧ (Src.upload_pdf fz true store file).insertedId = some id := by
  cases file with
  | none => exact Or.inl ⟨rfl, rfl⟩
  | some f =>
      by_cases hct : (f.content_type != "application/pdf") = true
      · left
        constructor <;> simp [Src.upload_pdf, hct]
      · have hct' : (f.content_type != "application/pdf") = false :=
          Bool.not_eq_true _ ▸ Bool.of_not_eq_true hct
        cases hl : List.lookup (pdfId f.bytes) store with
        | some v =>
            left
            constructor <;> simp [Src.upload_pdf, hct', hl]
        | none =>
            right
            exact ⟨pdfId f.bytes, extract_text_from_pdf (fz f.bytes),
              by simp [Src.upload_pdf, hct', hl], hl,
              by simp [Src.upload_pdf, hct', hl]⟩

theorem src_lookup_mono (fz : List Nat → PdfDoc) (store : List (String × String))
    (file : Option UploadFile) (d : String)
    (h : (List.lookup d store).isSome = true) :
    (List.lookup d (Src.upload_pdf fz true store file).store).isSome = true := by
  rcases src_upload_characterize fz store file with ⟨hs, _⟩ | ⟨id, text, hs, _, _⟩
  · rwa [hs]
  · rw [hs]
    simp only [List.lookup]
    cases hdk : d == id <;> simp [hdk, h]

theorem src_inserted_fresh (fz : List Nat → PdfDoc) (store : List (String × String))
    (file : Option UploadFile) (d : String)
    (h : (Src.upload_pdf fz true store file).insertedId = some d) :
    List.lookup d store = none
      ∧ (List.lookup d (Src.upload_pdf fz true store file).store).isSome = true := by
  rcases src_upload_characterize fz store file with ⟨_, hnone⟩ | ⟨id, text, hs, hfresh, hins⟩
  · rw [hnone] at h
    cases h
  · rw [hins] at h
    injection h with hd
    subst hd
    refine ⟨hfresh, ?_⟩
    rw [hs]
    simp [List.lookup]

theorem src_runUploads_count_zero (fz : List Nat → PdfDoc) (d : String) :
    ∀ (files : List (Option UploadFile)) (store : List (String × String)),
      (List.lookup d store).isSome = true →
      countOcc d (Src.runUploads fz files store) = 0 := by
  intro files
  induction files with
  | nil => intro store _; rfl
  | cons f fs ih =>
      intro store h
      show countOcc d ((Src.upload_pdf fz true store f).insertedId.toList
          ++ Src.runUploads fz fs (Src.upload_pdf fz true store f).store) = 0
      rw [countOcc_append, ih _ (src_lookup_mono fz store f d h), Nat.add_zero]
      cases hi : (Src.upload_pdf fz true store f).insertedId with
      | none => rfl
      | some i =>
          have hfresh := (src_inserted_fresh fz store f i hi).1
          have hne : i ≠ d := by
            intro hid
            subst hid
            rw [hfresh] at h
            simp at h
          simp [countOcc, hne]

theorem src_runUploads_at_most_one (fz : List Nat → PdfDoc) (d : String) :
    ∀ (files : List (Option UploadFile)) (store : List (String × String)),
      countOcc d (Src.runUploads fz files store) ≤ 1 := by
  intro files
  induction files with
  | nil => intro store; exact Nat.zero_le 1
  | cons f fs ih =>
      intro store
      show countOcc d ((Src.upload_pdf fz true store f).insertedId.toList
          ++ Src.runUploads fz fs (Src.upload_pdf fz true store f).store) ≤ 1
      rw [countOcc_append]
      cases hi : (Src.upload_pdf fz true store f).insertedId with
      | none =>
          simpa [countOcc] using ih (Src.upload_pdf fz true store f).store
      | some i =>
          by_cases hid : i = d
          · subst hid
            have hpres := (src_inserted_fresh fz store f i hi).2
            rw [src_runUploads_count_zero fz i fs _ hpres]
            simp [countOcc]
          · have h0 : countOcc d (some i).toList = 0 := by simp [countOcc, hid]
            rw [h0, Nat.zero_add]
            exact ih _

theorem ra_upload_characterize (fz : List Nat → PdfDoc) (dbFails : Bool)
    (store : List (String × PdfRow)) (file : Option UploadFile) :
    ((RecruitAssist.upload_pdf fz dbFails store file).store = store
        ∧ (RecruitAssist.upload_pdf fz dbFails store file).insertedId = none)
      ∨ ∃ id row, (RecruitAssist.upload_pdf fz dbFails store file).store = (id, row) :: store
          ∧ List.lookup id store = none
          ∧ (RecruitAssist.upload_pdf fz dbFails store file).insertedId = some id := by
  cases file with
  | none => exact Or.inl ⟨rfl, rfl⟩
  | some f =>
      by_cases hct : (f.content_type != "application/pdf") = true
      · left
        constructor <;> simp [RecruitAssist.upload_pdf, hct]
      · have hct' : (f.content_type != "application/pdf") = false :=
          Bool.not_eq_true _ ▸ Bool.of_not_eq_true hct
        cases dbFails with
        | true =>
            left
            constructor <;> simp [RecruitAssist.upload_pdf, hct']
        | false =>
            cases hl : List.lookup (pdfId f.bytes) store with
            | some v =>
                left
                constructor <;> simp [RecruitAssist.upload_pdf, hct', hl]
            | none =>
                right
                exact ⟨pdfId f.bytes, ⟨f.filename, extract_text_from_pdf (fz f.bytes)⟩,
                  by simp [RecruitAssist.upload_pdf, hct', hl], hl,
                  by simp [RecruitAssist.upload_pdf, hct', hl]⟩

theorem ra_lookup_mono (fz : List Nat → PdfDoc) (dbFails : Bool)
    (store : List (String × PdfRow)) (file : Option UploadFile) (d : String)
    (h : (List.lookup d store).isSome = true) :
    (List.lookup d (RecruitAssist.upload_pdf fz dbFails store file).store).isSome = true := by
  rcases ra_upload_characterize fz dbFails store file with ⟨hs, _⟩ | ⟨id, row, hs, _, _⟩
  · rwa [hs]
  · rw [hs]
    simp only [List.lookup]
    cases hdk : d == id <;> simp [hdk, h]

theorem ra_inserted_fresh (fz : List Nat → PdfDoc) (dbFails : Bool)
    (store : List (String × PdfRow)) (file : Option UploadFile) (d : String)
    (h : (RecruitAssist.upload_pdf fz dbFails store file).insertedId = some d) :
    List.lookup d store = none
      ∧ (List.lookup d (RecruitAssist.upload_pdf fz dbFails store file).store).isSome
          = true := by
  rcases ra_upload_characterize fz dbFails store file with
    ⟨_, hnone⟩ | ⟨id, row, hs, hfresh, hins⟩
  · rw [hnone] at h
    cases h
  · rw [hins] at h
    injection h with hd
    subst hd
    refine ⟨hfresh, ?_⟩
    rw [hs]
    simp [List.lookup]

theorem ra_runUploads_count_zero (fz : List Nat → PdfDoc) (d : String) :
    ∀ (files : List (Bool × Option UploadFile)) (store : List (String × PdfRow)),
      (List.lookup d store).isSome = true →
      countOcc d (RecruitAssist.runUploads fz files store) = 0 := by
  intro files
  induction files with
  | nil => intro store _; rfl
  | cons bf fs ih =>
      intro store h
      show countOcc d ((RecruitAssist.upload_pdf fz bf.1 store bf.2).insertedId.toList
          ++ RecruitAssist.runUploads fz fs
              (RecruitAssist.upload_pdf fz bf.1 store bf.2).store) = 0
      rw [countOcc_append, ih _ (ra_lookup_mono fz bf.1 store bf.2 d h), Nat.add_zero]
      cases hi : (RecruitAssist.upload_pdf fz bf.1 store bf.2).insertedId with
      | none => rfl
      | some i =>
          have hfresh := (ra_inserted_fresh fz bf.1 store bf.2 i hi).1
          have hne : i ≠ d := by
            intro hid
            subst hid
            rw [hfresh] at h
            simp at h
          simp [countOcc, hne]

theorem ra_runUploads_at_most_one (fz : List Nat → PdfDoc) (d : String) :
    ∀ (files : List (Bool × Option UploadFile)) (store : List (String × PdfRow)),
      countOcc d (RecruitAssist.runUploads fz files store) ≤ 1 := by
  intro files
  induction files with
  | nil => intro store; exact Nat.zero_le 1
  | cons bf fs ih =>
      intro store
      show countOcc d ((RecruitAssist.upload_pdf fz bf.1 store bf.2).insertedId.toList
          ++ RecruitAssist.runUploads fz fs
              (RecruitAssist.upload_pdf fz bf.1 store bf.2).store) ≤ 1
      rw [countOcc_append]
      cases hi : (RecruitAssist.upload_pdf fz bf.1 store bf.2).insertedId with
      | none =>
          simpa [countOcc] using ih (RecruitAssist.upload_pdf fz bf.1 store bf.2).store
      | some i =>
          by_cases hid : i = d
          · subst hid
            have hpres := (ra_inserted_fresh fz bf.1 store bf.2 i hi).2
            rw [ra_runUploads_count_zero fz i fs _ hpres]
            simp [countOcc]
          · have h0 : countOcc d (some i).toList = 0 := by simp [countOcc, hid]
            rw [h0, Nat.zero_add]
            exact ih _

theorem src_second_upload (fz : List Nat → PdfDoc) (store : List (String × String))
    (f : UploadFile) (hct : f.content_type = "application/pdf")
    (hfresh : List.lookup (pdfId f.bytes) store = none) :
    Src.upload_pdf fz true store (some f)
        = ⟨.ok (pdfId f.bytes),
           (pdfId f.bytes, extract_text_from_pdf (fz f.bytes)) :: store, 1,
           some (pdfId f.bytes)⟩
      ∧ Src.upload_pdf fz true
            ((pdfId f.bytes, extract_text_from_pdf (fz f.bytes)) :: store) (some f)
        = ⟨.ok (pdfId f.bytes),
           (pdfId f.bytes, extract_text_from_pdf (fz f.bytes)) :: store, 0, none⟩ := by
  have hb : (f.content_type != "application/pdf") = false := by
    rw [hct]
    exact bne_self_eq_false _
  constructor
  · simp [Src.upload_pdf, hb, hfresh]
  · simp [Src.upload_pdf, hb, List.lookup]

theorem ra_second_upload (fz : List Nat → PdfDoc) (store : List (String × PdfRow))
    (f : UploadFile) (hct : f.content_type = "application/pdf")
    (hfresh : List.lookup (pdfId f.bytes) store = none) :
    RecruitAssist.upload_pdf fz false store (some f)
        = ⟨.ok (pdfId f.bytes),
           (pdfId f.bytes, ⟨f.filename, extract_text_from_pdf (fz f.bytes)⟩) :: store, 1,
           some (pdfId f.bytes)⟩
      ∧ RecruitAssist.upload_pdf fz false
            ((pdfId f.bytes, ⟨f.filename, extract_text_from_pdf (fz f.bytes)⟩) :: store)
            (some f)
        = ⟨.ok (pdfId f.bytes),
           (pdfId f.bytes, ⟨f.filename, extract_text_from_pdf (fz f.bytes)⟩) :: store, 0,
           none⟩ := by
  have hb : (f.content_type != "application/pdf") = false := by
    rw [hct]
    exact bne_self_eq_false _
  constructor
  · simp [RecruitAssist.upload_pdf, hb, hfresh]
  · simp [RecruitAssist.upload_pdf, hb, List.lookup]

/-- C5: uploading byte-identical content twice triggers extraction exactly
once — the first accepted upload of unseen bytes extracts and inserts, the
second performs no extraction and leaves the store unchanged — and over
any whole sequence of uploads at most one cache insert occurs per
document id (both cached variants; in `recruit_assist` even with
interleaved storage failures). -/
theorem claim_C5_idempotent_cache :
    (∀ (fitzOpen : List Nat → PdfDoc) (store : List (String × String)) (f : UploadFile),
        f.content_type = "application/pdf" →
        List.lookup (pdfId f.bytes) store = none →
        (Src.upload_pdf fitzOpen true store (some f)).extractions = 1
          ∧ (Src.upload_pdf fitzOpen true
              (Src.upload_pdf fitzOpen true store (some f)).store (some f)).extractions = 0
          ∧ (Src.upload_pdf fitzOpen true
              (Src.upload_pdf fitzOpen true store (some f)).store (some f)).store
              = (Src.upload_pdf fitzOpen true store (some f)).store
          ∧ (Src.upload_pdf fitzOpen true
              (Src.upload_pdf fitzOpen true store (some f)).store (some f)).outcome
              = .ok (pdfId f.bytes))
      ∧ (∀ (fitzOpen : List Nat → PdfDoc) (store : List (String × PdfRow)) (f : UploadFile),
        f.content_type = "application/pdf" →
        List.lookup (pdfId f.bytes) store = none →
        (RecruitAssist.upload_pdf fitzOpen false store (some f)).extractions = 1
          ∧ (RecruitAssist.upload_pdf fitzOpen false
              (RecruitAssist.upload_pdf fitzOpen false store (some f)).store
              (some f)).extractions = 0
          ∧ (RecruitAssist.upload_pdf fitzOpen false
              (RecruitAssist.upload_pdf fitzOpen false store (some f)).store (some f)).store
              = (RecruitAssist.upload_pdf fitzOpen false store (some f)).store
          ∧ (RecruitAssist.upload_pdf fitzOpen false
              (RecruitAssist.upload_pdf fitzOpen false store (some f)).store
              (some f)).outcome = .ok (pdfId f.bytes))
      ∧ (∀ (fitzOpen : List Nat → PdfDoc) (d : String) (files : List (Option UploadFile))
          (store : List (String × String)),
        countOcc d (Src.runUploads fitzOpen files store) ≤ 1)
      ∧ (∀ (fitzOpen : List Nat → PdfDoc) (d : String)
          (files : List (Bool × Option UploadFile)) (store : List (String × PdfRow)),
        countOcc d (RecruitAssist.runUploads fitzOpen files store) ≤ 1) := by
  refine ⟨?_, ?_, ?_, ?_⟩
  · intro fz store f hct hfresh
    rcases src_second_upload fz store f hct hfresh with ⟨h1, h2⟩
    refine ⟨?_, ?_, ?_, ?_⟩ <;> simp [h1, h2]
  · intro fz store f hct hfresh
    rcases ra_second_upload fz store f hct hfresh with ⟨h1, h2⟩
    refine ⟨?_, ?_, ?_, ?_⟩ <;> simp [h1, h2]
  · intro fz d files store
    exact src_runUploads_at_most_one fz d files store
  · intro fz d files store
    exact ra_runUploads_at_most_one fz d files store

/-- C5 witness: the idempotence statement at a concrete file and the empty
cache. -/
theorem claim_C5_witness :
    (Src.upload_pdf samplePdfBackend true []
        (some ⟨"a.pdf", "application/pdf", [1, 2]⟩)).extractions = 1
      ∧ (Src.upload_pdf samplePdfBackend true
          (Src.upload_pdf samplePdfBackend true []
            (some ⟨"a.pdf", "application/pdf", [1, 2]⟩)).store
          (some ⟨"a.pdf", "application/pdf", [1, 2]⟩)).extractions = 0
      ∧ (Src.upload_pdf samplePdfBackend true
          (Src.upload_pdf samplePdfBackend true []
            (some ⟨"a.pdf", "application/pdf", [1, 2]⟩)).store
          (some ⟨"a.pdf", "application/pdf", [1, 2]⟩)).store
          = (Src.upload_pdf samplePdfBackend true []
            (some ⟨"a.pdf", "application/pdf", [1, 2]⟩)).store
      ∧ (Src.upload_pdf samplePdfBackend true
          (Src.upload_pdf samplePdfBackend true []
            (some ⟨"a.pdf", "application/pdf", [1, 2]⟩)).store
          (some ⟨"a.pdf", "application/pdf", [1, 2]⟩)).outcome = .ok (pdfId [1, 2]) :=
  claim_C5_idempotent_cache.1 samplePdfBackend [] ⟨"a.pdf", "application/pdf", [1, 2]⟩
    rfl rfl
